import Mathlib

/-!
Verification of the Zabbix MCP bridge (`zabbix-mcp`): a shallow embedding of
the RPC client (`src/zabbix_mcp/client.py`), the user-management layer
(`src/zabbix_mcp/user_management.py`) and the `create_host` tool handler
(`src/zabbix_mcp/tools.py`), together with theorems checking the
natural-language specification against that code.

Remote I/O is modelled by an oracle `σ → Payload → TResp × σ` supplied by the
caller; every client operation returns its result, the updated client, the
updated oracle state, and the list of JSON-RPC envelopes it put on the wire.
Python exceptions are modelled with `Except PyErr`; Python's `dict`/`list`/
`str`/`int`/`bool`/`None` values with the inductive `JVal`.
-/

/-- JSON-like values exchanged with the Zabbix API (Python `dict`, `list`,
`str`, `int`, `bool`, `None`). -/
inductive JVal where
  | null
  | bool (b : Bool)
  | int (n : Int)
  | str (s : String)
  | arr (elems : List JVal)
  | obj (fields : List (String × JVal))

/-- Python truthiness (`bool(v)`): `None`, `False`, `0`, `""`, `[]`, and
empty dicts are falsy. -/
def JVal.truthy : JVal → Bool
  | .null => false
  | .bool b => b
  | .int n => n != 0
  | .str s => s != ""
  | .arr xs => !xs.isEmpty
  | .obj fs => !fs.isEmpty

/-- Python `d.get(k)` / `k in d`: field lookup, `none` when the value is not
a dict or the key is absent. -/
def JVal.getField : JVal → String → Option JVal
  | .obj fs, k => fs.lookup k
  | _, _ => none

mutual

/-- Structural equality mirroring Python `==` on JSON-like values. -/
def JVal.beq : JVal → JVal → Bool
  | .null, .null => true
  | .bool a, .bool b => a == b
  | .int a, .int b => a == b
  | .str a, .str b => a == b
  | .arr xs, .arr ys => JVal.beqList xs ys
  | .obj xs, .obj ys => JVal.beqFields xs ys
  | _, _ => false

/-- Elementwise `JVal.beq` on lists. -/
def JVal.beqList : List JVal → List JVal → Bool
  | [], [] => true
  | x :: xs, y :: ys => JVal.beq x y && JVal.beqList xs ys
  | _, _ => false

/-- Elementwise `JVal.beq` on dict entries. -/
def JVal.beqFields : List (String × JVal) → List (String × JVal) → Bool
  | [], [] => true
  | (k, v) :: xs, (l, w) :: ys => k == l && JVal.beq v w && JVal.beqFields xs ys
  | _, _ => false

end

/-- A single-quote character, used by the Python `repr` of strings. -/
def pyQuote : String := String.singleton (Char.ofNat 39)

mutual

/-- Python `repr` of a JSON-like value (as produced by `str` on containers). -/
def pyRepr : JVal → String
  | .null => "None"
  | .bool b => if b then "True" else "False"
  | .int n => toString n
  | .str s => pyQuote ++ s ++ pyQuote
  | .arr xs => "[" ++ String.intercalate ", " (pyReprList xs) ++ "]"
  | .obj fs => "\x7b" ++ String.intercalate ", " (pyReprFields fs) ++ "\x7d"

/-- `pyRepr` mapped over list elements. -/
def pyReprList : List JVal → List String
  | [] => []
  | x :: xs => pyRepr x :: pyReprList xs

/-- `pyRepr` mapped over dict entries. -/
def pyReprFields : List (String × JVal) → List String
  | [] => []
  | (k, v) :: fs => (pyQuote ++ k ++ pyQuote ++ ": " ++ pyRepr v) :: pyReprFields fs

end

/-- Python `str(v)`: the string itself for strings, `repr` otherwise. -/
def pyStr : JVal → String
  | .str s => s
  | v => pyRepr v

/-- Python `s.lower()` (ASCII case folding). -/
def pyLower (s : String) : String := String.mk (s.toList.map Char.toLower)

/-- Whether the first character list starts the second. -/
def charsStartWith : List Char → List Char → Bool
  | [], _ => true
  | _ :: _, [] => false
  | x :: xs, y :: ys => x == y && charsStartWith xs ys

/-- Whether the first character list occurs contiguously in the second. -/
def charsContain (needle : List Char) : List Char → Bool
  | [] => charsStartWith needle []
  | y :: ys => charsStartWith needle (y :: ys) || charsContain needle ys

/-- Python `needle in haystack` on strings: substring containment (the empty
string is contained in everything). -/
def pyIn (needle haystack : String) : Bool :=
  charsContain needle.toList haystack.toList

/-- Python `s.isdigit()` restricted to ASCII digits: nonempty and all digits. -/
def pyIsDigit (s : String) : Bool := !s.isEmpty && s.toList.all Char.isDigit

/-- Python exceptions that the embedded code can raise or catch. -/
inductive PyErr where
  | zabbixAPIError (msg : String)
  | attributeError (msg : String)
  | valueError (msg : String)
  | typeError (msg : String)
  | indexError (msg : String)
  | keyError (msg : String)

/-- Python `str(e)` on an exception: its message. -/
def pyErrStr : PyErr → String
  | .zabbixAPIError m => m
  | .attributeError m => m
  | .valueError m => m
  | .typeError m => m
  | .indexError m => m
  | .keyError m => m

/-- Python `xs[0]`: head of a list, `IndexError` when empty, `TypeError` on a
non-list (the shapes the code indexes are lists from the API). -/
def pyIndex0 : JVal → Except PyErr JVal
  | .arr (x :: _) => .ok x
  | .arr [] => .error (.indexError "list index out of range")
  | _ => .error (.typeError "object is not subscriptable")

/-- A JSON-RPC request envelope as built by `ZabbixClient` before posting:
`jsonrpc` is always the literal `"2.0"`, so only the varying fields are kept
(`auth` is absent exactly for the login call). -/
structure Payload where
  method : String
  params : JVal
  auth : Option JVal
  id : Nat

/-- Outcome of posting one envelope: a transport-level failure
(`requests.RequestException`, including HTTP errors from
`raise_for_status`), or a parsed JSON body. -/
inductive TResp where
  | transportError (msg : String)
  | json (data : JVal)

/-- A remote endpoint: consumes an envelope, yields a response and a
successor state. -/
abbrev Remote (σ : Type) := σ → Payload → TResp × σ

/-- State of `ZabbixClient` (client.py lines 19-37): credentials, the optional
auth token, and the `_request_id` counter (starts at 0; `_get_request_id`
pre-increments, lines 39-42). -/
structure ZabbixClient where
  username : String
  password : String
  token : Option JVal
  requestId : Nat

/-- A client as built by `ZabbixClient.__init__`: no token, counter 0. -/
def ZabbixClient.init (username password : String) : ZabbixClient :=
  { username := username, password := password, token := none, requestId := 0 }

/-- Python `if not self.token:` — the token is set and truthy. -/
def ZabbixClient.tokenTruthy (c : ZabbixClient) : Bool :=
  match c.token with
  | none => false
  | some t => t.truthy

/-- `ZabbixClient.authenticate` (client.py lines 44-81): posts a `user.login`
envelope (no `auth` field) with the next request id; a transport failure or
an `error` field or a missing `result` field raises `ZabbixAPIError`;
otherwise the `result` value is stored as the token and `True` returned. -/
def ZabbixClient.authenticate (remote : Remote σ) (c : ZabbixClient) (env : σ) :
    Except PyErr Bool × ZabbixClient × σ × List Payload :=
  let rid := c.requestId + 1
  let c1 : ZabbixClient := { c with requestId := rid }
  let payload : Payload :=
    { method := "user.login"
      params := JVal.obj [("username", JVal.str c.username),
                          ("password", JVal.str c.password)]
      auth := none
      id := rid }
  match remote env payload with
  | (TResp.transportError e, env1) =>
      (.error (.zabbixAPIError ("Connection error: " ++ e)), c1, env1, [payload])
  | (TResp.json data, env1) =>
      match data.getField "error" with
      | some e =>
          (.error (.zabbixAPIError ("Authentication failed: " ++ pyStr e)), c1, env1, [payload])
      | none =>
          match data.getField "result" with
          | some tok => (.ok true, { c1 with token := some tok }, env1, [payload])
          | none => (.error (.zabbixAPIError "No token in response"), c1, env1, [payload])

/-- `ZabbixClient.call` (client.py lines 83-126): raises before building any
envelope when the token is unset/falsy; otherwise posts an envelope with the
next id, the token, and the params (defaulting to an empty dict). A transport
failure raises; an `error` field raises `ZabbixAPIError` whose message keeps
only the error dict's `data` entry when present (else the stringified dict);
otherwise the `result` field is returned, defaulting to an empty dict. -/
def ZabbixClient.call (remote : Remote σ) (c : ZabbixClient) (env : σ)
    (method : String) (params? : Option JVal) :
    Except PyErr JVal × ZabbixClient × σ × List Payload :=
  if !c.tokenTruthy then
    (.error (.zabbixAPIError "Not authenticated. Call authenticate() first."), c, env, [])
  else
    let params := params?.getD (JVal.obj [])
    let rid := c.requestId + 1
    let c1 : ZabbixClient := { c with requestId := rid }
    let payload : Payload := { method := method, params := params, auth := c.token, id := rid }
    match remote env payload with
    | (TResp.transportError e, env1) =>
        (.error (.zabbixAPIError ("Connection error: " ++ e)), c1, env1, [payload])
    | (TResp.json data, env1) =>
        match data.getField "error" with
        | some e =>
            let errMsg :=
              match e with
              | JVal.obj fs => pyStr ((fs.lookup "data").getD (JVal.str (pyRepr (JVal.obj fs))))
              | v => pyStr v
            (.error (.zabbixAPIError ("API error: " ++ errMsg)), c1, env1, [payload])
        | none =>
            (.ok ((data.getField "result").getD (JVal.obj [])), c1, env1, [payload])

/-- Python `t["templateid"]` on an entry of a template list. -/
def extractTemplateId (t : JVal) : Except PyErr JVal :=
  match t.getField "templateid" with
  | some v => .ok v
  | none => .error (.keyError "templateid")

/-- Iterate a JSON value as a list; the code only iterates list-shaped API
fields, so other shapes are modelled as a type error. -/
def asList : JVal → Except PyErr (List JVal)
  | .arr xs => .ok xs
  | _ => .error (.typeError "object is not iterable")

/-- Body of `ZabbixClient.link_template` (client.py lines 256-287), i.e. the
`try` block: fetch the host with its parent templates; raise a descriptive
`ZabbixAPIError` when the lookup is empty; succeed without any update when
the template id is already present; otherwise post a `host.update` carrying
the full merged template list and return the truthiness of its result. -/
def ZabbixClient.linkTemplateBody (remote : Remote σ) (c : ZabbixClient) (env : σ)
    (hostid templateid : String) :
    Except PyErr Bool × ZabbixClient × σ × List Payload :=
  let s1 := ZabbixClient.call remote c env "host.get"
      (some (JVal.obj [("output", JVal.str "extend"), ("hostids", JVal.str hostid),
                       ("selectParentTemplates", JVal.str "extend")]))
  let c1 := s1.2.1
  let env1 := s1.2.2.1
  let tr1 := s1.2.2.2
  match s1.1 with
  | .error e => (.error e, c1, env1, tr1)
  | .ok host =>
    if host.truthy = false then
      (.error (.zabbixAPIError ("Host with ID " ++ hostid ++ " not found")), c1, env1, tr1)
    else
      match pyIndex0 host with
      | .error e => (.error e, c1, env1, tr1)
      | .ok h =>
        match asList ((h.getField "parentTemplates").getD (JVal.arr [])) with
        | .error e => (.error e, c1, env1, tr1)
        | .ok parents =>
          match parents.mapM extractTemplateId with
          | .error e => (.error e, c1, env1, tr1)
          | .ok tids =>
            if tids.any (fun v => JVal.beq v (JVal.str templateid)) then
              (.ok true, c1, env1, tr1)
            else
              let newTemplates := tids.map (fun v => JVal.obj [("templateid", v)]) ++
                [JVal.obj [("templateid", JVal.str templateid)]]
              let s2 := ZabbixClient.call remote c1 env1 "host.update"
                  (some (JVal.obj [("hostid", JVal.str hostid),
                                   ("templates", JVal.arr newTemplates)]))
              match s2.1 with
              | .error e => (.error e, s2.2.1, s2.2.2.1, tr1 ++ s2.2.2.2)
              | .ok r => (.ok r.truthy, s2.2.1, s2.2.2.1, tr1 ++ s2.2.2.2)

/-- `ZabbixClient.link_template` (client.py lines 245-290): the body above
with its `except ZabbixAPIError` handler, which logs the error and returns
`False`; other exceptions propagate. -/
def ZabbixClient.link_template (remote : Remote σ) (c : ZabbixClient) (env : σ)
    (hostid templateid : String) :
    Except PyErr Bool × ZabbixClient × σ × List Payload :=
  match ZabbixClient.linkTemplateBody remote c env hostid templateid with
  | (.error (.zabbixAPIError _), c1, env1, tr) => (.ok false, c1, env1, tr)
  | r => r

/-- Template ids a Zabbix server reads out of a `host.update` `templates`
field (the field is replace-all). -/
def serverTemplateIds (ts : List JVal) : List String :=
  ts.filterMap (fun t =>
    match t.getField "templateid" with
    | some (JVal.str s) => some s
    | _ => none)

/-- Replace the template list of one host on the server. -/
def serverSetTemplates (srv : List (String × List String)) (h : String) (ts : List String) :
    List (String × List String) :=
  srv.map (fun kv => if kv.1 = h then (kv.1, ts) else kv)

/-- Render a server-side template list as the `parentTemplates` field of a
`host.get` response. -/
def templatesAsJson (ts : List String) : JVal :=
  JVal.arr (ts.map (fun t => JVal.obj [("templateid", JVal.str t)]))

/-- Environment model for the template-linking theorems: a server mapping
each host id to its linked template ids, honouring `host.get` (with
`selectParentTemplates`) and `host.update` (replace-all `templates`). -/
def serverRemote : Remote (List (String × List String)) := fun srv p =>
  if p.method = "host.get" then
    match p.params.getField "hostids" with
    | some (JVal.str h) =>
        match srv.lookup h with
        | some ts =>
            (TResp.json (JVal.obj [("result", JVal.arr [JVal.obj
              [("hostid", JVal.str h), ("parentTemplates", templatesAsJson ts)]])]), srv)
        | none => (TResp.json (JVal.obj [("result", JVal.arr [])]), srv)
    | _ => (TResp.json (JVal.obj [("result", JVal.arr [])]), srv)
  else if p.method = "host.update" then
    match p.params.getField "hostid", p.params.getField "templates" with
    | some (JVal.str h), some (JVal.arr ts) =>
        (TResp.json (JVal.obj [("result", JVal.obj [("hostids", JVal.arr [JVal.str h])])]),
         serverSetTemplates srv h (serverTemplateIds ts))
    | _, _ => (TResp.json (JVal.obj [("result", JVal.obj [])]), srv)
  else (TResp.json (JVal.obj [("result", JVal.obj [])]), srv)

/-- Python `int(v)` as applied by the code to interface availability values:
ints pass through, booleans coerce, numeric strings (optional sign) parse,
anything else raises. -/
def pyToInt : JVal → Except PyErr Int
  | .int n => .ok n
  | .bool b => .ok (if b then 1 else 0)
  | .str s =>
      match s.toList with
      | [] => .error (.valueError "invalid literal for int()")
      | c :: cs =>
          if c == Char.ofNat 45 then
            if !cs.isEmpty && cs.all Char.isDigit then
              .ok (-(Int.ofNat (cs.foldl (fun acc d => acc * 10 + (d.toNat - 48)) 0)))
            else .error (.valueError "invalid literal for int()")
          else
            if (c :: cs).all Char.isDigit then
              .ok (Int.ofNat ((c :: cs).foldl (fun acc d => acc * 10 + (d.toNat - 48)) 0))
            else .error (.valueError "invalid literal for int()")
  | _ => .error (.typeError "int() argument must be a string or a number")

/-- Python truthiness of an optional string argument. -/
def strOptTruthy : Option String → Bool
  | none => false
  | some s => s != ""

/-- Python truthiness of an optional JSON value. -/
def jOptTruthy : Option JVal → Bool
  | none => false
  | some v => v.truthy

/-- A remote request as seen through the user-management layer's client
object: method name and parameter dict. -/
abbrev ApiReq := String × JVal

/-- The client object handed to `UserManagement`, abstracted to its
`api_call` attribute: given the oracle state, a method and params, it yields
the call's outcome, the next oracle state, and the remote requests it
actually issued. -/
abbrev ApiCallFn (σ : Type) := σ → String → JVal → Except PyErr JVal × σ × List ApiReq

/-- The client the program actually wires in (tools.py builds
`UserManagement(client)` with a `ZabbixClient`): `ZabbixClient` defines
`call` but no `api_call` attribute (client.py lines 16-311), so every
`self.client.api_call(...)` in user_management.py raises `AttributeError`
during attribute lookup, before any remote request is issued. -/
def zabbixClientApiCall (σ : Type) : ApiCallFn σ := fun env _ _ =>
  (.error (.attributeError "ZabbixClient object has no attribute api_call"), env, [])

/-- Result dict of `UserManagement.create_user`. -/
structure CreateUserResult where
  success : Bool
  userid : Option JVal
  message : String
  validation_errors : List String

/-- Result dict of `UserManagement.update_user`. -/
structure UpdateUserResult where
  success : Bool
  message : String
  changes_made : List String

/-- Result dict of `UserManagement.get_roles`. -/
structure RolesResult where
  roles : JVal
  total : Nat
  error : Option String

/-- Result dict of `UserManagement.assign_role_to_user`. -/
structure AssignRoleResult where
  success : Bool
  message : String
  userid : Option String
  roleid : Option String

/-- Result dict of `UserManagement.check_host_interface_availability`. -/
structure AvailabilityResult where
  hostid : String
  host : Option JVal
  status : String
  available : Int
  interfaces : List JVal
  error : Option String

/-- `UserManagement._resolve_role_id` (user_management.py lines 375-401):
digit strings pass through; otherwise a `role.get` lookup by exact name,
with a bare `except` turning any failure into `None`. -/
def resolve_role_id (apiCall : ApiCallFn σ) (env : σ) (role : String) :
    Option JVal × σ × List ApiReq :=
  if pyIsDigit role then
    (some (JVal.str role), env, [])
  else
    let r := apiCall env "role.get"
      (JVal.obj [("output", JVal.arr [JVal.str "roleid", JVal.str "name"]),
                 ("filter", JVal.obj [("name", JVal.str role)])])
    match r.1 with
    | .error _ => (none, r.2.1, r.2.2)
    | .ok roles =>
        if roles.truthy then
          match pyIndex0 roles with
          | .error _ => (none, r.2.1, r.2.2)
          | .ok r0 =>
              match r0.getField "roleid" with
              | some rid => (some rid, r.2.1, r.2.2)
              | none => (none, r.2.1, r.2.2)
        else (none, r.2.1, r.2.2)

/-- `UserManagement.create_user` (user_management.py lines 19-120): collects
the password-containment violations (username, then surname) before failing;
then resolves the role; then attempts the `user.create` call inside a
`try`/`except` that converts any exception into a failure result. -/
def create_user (apiCall : ApiCallFn σ) (env : σ)
    (username password : String) (role : String)
    (email name surname : Option String) :
    CreateUserResult × σ × List ApiReq :=
  let usernameErrs :=
    if pyIn (pyLower username) (pyLower password) then ["Password cannot contain username"] else []
  let surnameErrs :=
    match surname with
    | some s => if s != "" && pyIn (pyLower s) (pyLower password) then
        ["Password cannot contain surname"] else []
    | none => []
  let validation_errors := usernameErrs ++ surnameErrs
  if !validation_errors.isEmpty then
    ({ success := false, userid := none, message := "Password validation failed",
       validation_errors := validation_errors }, env, [])
  else
    let rr := resolve_role_id apiCall env role
    let env1 := rr.2.1
    let tr1 := rr.2.2
    if jOptTruthy rr.1 = false then
      ({ success := false, userid := none, message := "Role not found: " ++ role,
         validation_errors := ["Unknown role: " ++ role] }, env1, tr1)
    else
      let p0 := [("username", JVal.str username), ("passwd", JVal.str password),
                 ("roleid", rr.1.getD JVal.null)]
      let p1 := match email with
        | some e => if e != "" then p0 ++ [("usrgrps", JVal.arr [])] else p0
        | none => p0
      let p2 := match name with
        | some n => if n != "" then p1 ++ [("name", JVal.str n)] else p1
        | none => p1
      let p3 := match surname with
        | some s => if s != "" then p2 ++ [("surname", JVal.str s)] else p2
        | none => p2
      let cr := apiCall env1 "user.create" (JVal.obj p3)
      let env2 := cr.2.1
      let tr := tr1 ++ cr.2.2
      match cr.1 with
      | .error e =>
          ({ success := false, userid := none,
             message := "Error creating user: " ++ pyErrStr e,
             validation_errors := [pyErrStr e] }, env2, tr)
      | .ok result =>
          if result.truthy && (result.getField "userids").isSome then
            match result.getField "userids" with
            | some (JVal.arr (u :: _)) =>
                ({ success := true, userid := some u,
                   message := "User created successfully: " ++ username,
                   validation_errors := [] }, env2, tr)
            | some (JVal.arr []) =>
                ({ success := false, userid := none,
                   message := "Error creating user: list index out of range",
                   validation_errors := ["list index out of range"] }, env2, tr)
            | _ =>
                ({ success := false, userid := none,
                   message := "Error creating user: object is not subscriptable",
                   validation_errors := ["object is not subscriptable"] }, env2, tr)
          else
            ({ success := false, userid := none, message := "Failed to create user",
               validation_errors := ["API returned no user ID"] }, env2, tr)

/-- Python `field and field.lower() in password.lower()` on an optional
string-valued JSON field (`.lower()` on a truthy non-string raises). -/
def fieldContainedIn (v : Option JVal) (pw : String) : Except PyErr Bool :=
  match v with
  | none => .ok false
  | some JVal.null => .ok false
  | some (JVal.str s) => .ok (s != "" && pyIn (pyLower s) (pyLower pw))
  | some v => if v.truthy then .error (.attributeError "object has no attribute lower")
              else .ok false

/-- Outcome of `update_user`'s password block (user_management.py lines
171-197): one of the three early failure returns, a propagating exception,
or the accepted params/changes contribution. -/
inductive PassOutcome where
  | needCurrent
  | containsUsername
  | containsSurname
  | raised (e : PyErr)
  | accepted (params : List (String × JVal)) (changes : List String)

/-- `UserManagement.update_user` (user_management.py lines 122-242): fetches
the current user record first; rejects a new password without the current
one, or one containing the username/surname; accumulates only supplied
fields; succeeds trivially when nothing was supplied; otherwise posts
`user.update`. The surrounding `try`/`except` converts any exception into a
failure result with an empty change list. -/
def update_user (apiCall : ApiCallFn σ) (env : σ) (userid : String)
    (password roleid current_password email name surname : Option String) :
    UpdateUserResult × σ × List ApiReq :=
  let fr := apiCall env "user.get"
      (JVal.obj [("output", JVal.arr [JVal.str "userid", JVal.str "username", JVal.str "surname"]),
                 ("userids", JVal.str userid)])
  let env1 := fr.2.1
  let tr1 := fr.2.2
  match fr.1 with
  | .error e =>
      ({ success := false, message := "Error updating user: " ++ pyErrStr e,
         changes_made := [] }, env1, tr1)
  | .ok current_user =>
    if current_user.truthy = false then
      ({ success := false, message := "User not found: " ++ userid, changes_made := [] },
        env1, tr1)
    else
      match pyIndex0 current_user with
      | .error e =>
          ({ success := false, message := "Error updating user: " ++ pyErrStr e,
             changes_made := [] }, env1, tr1)
      | .ok current =>
        let uname := current.getField "username"
        let usurname := current.getField "surname"
        let passStep : PassOutcome :=
          match password with
          | some pw =>
              if pw != "" then
                if strOptTruthy current_password = false then
                  PassOutcome.needCurrent
                else
                  match fieldContainedIn uname pw with
                  | .error e => PassOutcome.raised e
                  | .ok true => PassOutcome.containsUsername
                  | .ok false =>
                    match fieldContainedIn usurname pw with
                    | .error e => PassOutcome.raised e
                    | .ok true => PassOutcome.containsSurname
                    | .ok false =>
                        PassOutcome.accepted
                          [("passwd", JVal.str pw),
                           ("current_passwd", JVal.str (current_password.getD ""))]
                          ["password"]
              else PassOutcome.accepted [] []
          | none => PassOutcome.accepted [] []
        match passStep with
        | PassOutcome.needCurrent =>
            ({ success := false, message := "current_password required when changing password",
               changes_made := [] }, env1, tr1)
        | PassOutcome.containsUsername =>
            ({ success := false, message := "New password cannot contain username",
               changes_made := [] }, env1, tr1)
        | PassOutcome.containsSurname =>
            ({ success := false, message := "New password cannot contain surname",
               changes_made := [] }, env1, tr1)
        | PassOutcome.raised e =>
            ({ success := false, message := "Error updating user: " ++ pyErrStr e,
               changes_made := [] }, env1, tr1)
        | PassOutcome.accepted passParams passChanges =>
          let roleParams := match roleid with
            | some r => if r != "" then [("roleid", JVal.str r)] else []
            | none => []
          let roleChanges : List String := if roleParams.isEmpty then [] else ["role"]
          let emailParams := match email with
            | some e => if e != "" then [("email", JVal.str e)] else []
            | none => []
          let emailChanges : List String := if emailParams.isEmpty then [] else ["email"]
          let nameParams := match name with
            | some n => if n != "" then [("name", JVal.str n)] else []
            | none => []
          let nameChanges : List String := if nameParams.isEmpty then [] else ["name"]
          let surnameParams := match surname with
            | some s => if s != "" then [("surname", JVal.str s)] else []
            | none => []
          let surnameChanges : List String := if surnameParams.isEmpty then [] else ["surname"]
          let params := [("userid", JVal.str userid)] ++ passParams ++ roleParams ++
            emailParams ++ nameParams ++ surnameParams
          let changes := passChanges ++ roleChanges ++ emailChanges ++ nameChanges ++
            surnameChanges
          if params.length == 1 then
            ({ success := true, message := "No changes requested", changes_made := [] },
              env1, tr1)
          else
            let ur := apiCall env1 "user.update" (JVal.obj params)
            let env2 := ur.2.1
            let tr := tr1 ++ ur.2.2
            match ur.1 with
            | .error e =>
                ({ success := false, message := "Error updating user: " ++ pyErrStr e,
                   changes_made := [] }, env2, tr)
            | .ok result =>
                if result.truthy && (result.getField "userids").isSome then
                  ({ success := true, message := "User updated successfully",
                     changes_made := changes }, env2, tr)
                else
                  ({ success := false, message := "Failed to update user",
                     changes_made := [] }, env2, tr)

/-- Python `len(v)` on JSON containers. -/
def pyLen : JVal → Except PyErr Nat
  | .str s => .ok s.length
  | .arr xs => .ok xs.length
  | .obj fs => .ok fs.length
  | _ => .error (.typeError "object has no len()")

/-- `UserManagement.get_roles` (user_management.py lines 244-267). -/
def get_roles (apiCall : ApiCallFn σ) (env : σ) : RolesResult × σ × List ApiReq :=
  let r := apiCall env "role.get"
      (JVal.obj [("output", JVal.arr [JVal.str "roleid", JVal.str "name", JVal.str "type"])])
  match r.1 with
  | .error e => ({ roles := JVal.arr [], total := 0, error := some (pyErrStr e) }, r.2.1, r.2.2)
  | .ok roles =>
      match (if roles.truthy then pyLen roles else .ok 0) with
      | .ok n =>
          ({ roles := if roles.truthy then roles else JVal.arr [], total := n, error := none },
            r.2.1, r.2.2)
      | .error e =>
          ({ roles := JVal.arr [], total := 0, error := some (pyErrStr e) }, r.2.1, r.2.2)

/-- `UserManagement.assign_role_to_user` (user_management.py lines 269-302). -/
def assign_role_to_user (apiCall : ApiCallFn σ) (env : σ) (userid roleid : String) :
    AssignRoleResult × σ × List ApiReq :=
  let r := apiCall env "user.update"
      (JVal.obj [("userid", JVal.str userid), ("roleid", JVal.str roleid)])
  match r.1 with
  | .error e =>
      ({ success := false, message := "Error assigning role: " ++ pyErrStr e,
         userid := none, roleid := none }, r.2.1, r.2.2)
  | .ok result =>
      if result.truthy && (result.getField "userids").isSome then
        ({ success := true, message := "Role assigned to user " ++ userid,
           userid := some userid, roleid := some roleid }, r.2.1, r.2.2)
      else
        ({ success := false, message := "Failed to assign role",
           userid := none, roleid := none }, r.2.1, r.2.2)

/-- The fixed availability mapping of
`UserManagement.check_host_interface_availability` (user_management.py
lines 342-347). -/
def availability_map : List (String × String) :=
  [("0", "unknown"), ("1", "available"), ("2", "checking"), ("3", "unavailable")]

/-- `UserManagement.check_host_interface_availability` (user_management.py
lines 304-373): fetch the host with interfaces; empty result yields an
explicit unknown status with a not-found error; otherwise classify from the
first interface's `available` code; the surrounding `try`/`except` converts
any exception into the unknown record with the error string. -/
def check_host_interface_availability (apiCall : ApiCallFn σ) (env : σ) (hostid : String) :
    AvailabilityResult × σ × List ApiReq :=
  let r := apiCall env "host.get"
      (JVal.obj [("output", JVal.arr [JVal.str "hostid", JVal.str "host", JVal.str "status"]),
                 ("selectInterfaces", JVal.arr [JVal.str "interfaceid", JVal.str "ip",
                                               JVal.str "port", JVal.str "available"]),
                 ("hostids", JVal.str hostid)])
  let env1 := r.2.1
  let tr := r.2.2
  match r.1 with
  | .error e =>
      ({ hostid := hostid, host := none, status := "unknown", available := 0,
         interfaces := [], error := some (pyErrStr e) }, env1, tr)
  | .ok hosts =>
    if hosts.truthy = false then
      ({ hostid := hostid, host := none, status := "unknown", available := 0,
         interfaces := [], error := some "Host not found" }, env1, tr)
    else
      match pyIndex0 hosts with
      | .error e =>
          ({ hostid := hostid, host := none, status := "unknown", available := 0,
             interfaces := [], error := some (pyErrStr e) }, env1, tr)
      | .ok host =>
        match asList ((host.getField "interfaces").getD (JVal.arr [])) with
        | .error e =>
            ({ hostid := hostid, host := none, status := "unknown", available := 0,
               interfaces := [], error := some (pyErrStr e) }, env1, tr)
        | .ok interfaces =>
          match interfaces with
          | [] =>
              ({ hostid := hostid, host := host.getField "host", status := "unknown",
                 available := 0, interfaces := [], error := none }, env1, tr)
          | primary :: _ =>
              match pyToInt ((primary.getField "available").getD (JVal.int 0)) with
              | .error e =>
                  ({ hostid := hostid, host := none, status := "unknown", available := 0,
                     interfaces := [], error := some (pyErrStr e) }, env1, tr)
              | .ok n =>
                  ({ hostid := hostid, host := host.getField "host",
                     status := ((availability_map.lookup (toString n)).getD "unknown"),
                     available := n, interfaces := interfaces, error := none }, env1, tr)

/-- Extraction of a new entity id from a create-call result (tools.py lines
504 and 523): `result[0] if isinstance(result, list) else
result.get(key, [None])[0]`. -/
def extractCreatedId (result : JVal) (key : String) : Except PyErr JVal :=
  match result with
  | JVal.arr (x :: _) => .ok x
  | JVal.arr [] => .error (.indexError "list index out of range")
  | JVal.obj fs =>
      match (fs.lookup key).getD (JVal.arr [JVal.null]) with
      | JVal.arr (x :: _) => .ok x
      | JVal.arr [] => .error (.indexError "list index out of range")
      | _ => .error (.typeError "object is not subscriptable")
  | _ => .error (.attributeError "object has no attribute get")

/-- The success text of `handle_create_host` (tools.py lines 536-545). -/
def createHostSuccessText (hostname display_name ip_address port hostidV interfaceidV
    template_id : JVal) : String :=
  "✅ Host Created Successfully!\n        \n🖥️ Hostname: " ++ pyStr hostname ++
  "\n📝 Display: " ++ pyStr display_name ++
  "\n🌐 IP: " ++ pyStr ip_address ++ ":" ++ pyStr port ++
  "\n🔗 Host ID: " ++ pyStr hostidV ++
  "\n📋 Interface ID: " ++ pyStr interfaceidV ++
  "\n📊 Template: " ++ (if JVal.beq template_id (JVal.str "10001") then "Linked (10001)"
                        else "Linked (" ++ pyStr template_id ++ ")") ++
  "\n\nNext: Wait 30-60 seconds for agent to start reporting metrics."

/-- `handle_create_host` (tools.py lines 480-547): validate the three
required arguments, then the three-step flow `host.create` →
`hostinterface.create` → `host.update` (template linking, skipped only when
`template_id` is falsy), propagating the id from step 1 into steps 2 and 3;
every exception is caught and rendered as an error string. -/
def handle_create_host (remote : Remote σ) (c : ZabbixClient) (env : σ)
    (args : List (String × JVal)) : String × ZabbixClient × σ × List Payload :=
  let hostname := (args.lookup "hostname").getD JVal.null
  let display_name := (args.lookup "display_name").getD JVal.null
  let ip_address := (args.lookup "ip_address").getD JVal.null
  let port := (args.lookup "port").getD (JVal.str "10050")
  let group_id := (args.lookup "group_id").getD (JVal.str "2")
  let template_id := (args.lookup "template_id").getD (JVal.str "10001")
  if !(hostname.truthy && display_name.truthy && ip_address.truthy) then
    ("❌ Error: hostname, display_name, and ip_address are required", c, env, [])
  else
    let s1 := ZabbixClient.call remote c env "host.create"
        (some (JVal.obj [("host", hostname), ("name", display_name),
                         ("groups", JVal.arr [JVal.obj [("groupid", group_id)]])]))
    let c1 := s1.2.1
    let env1 := s1.2.2.1
    let tr1 := s1.2.2.2
    match s1.1 with
    | .error e => ("❌ Error: " ++ pyErrStr e, c1, env1, tr1)
    | .ok host_result =>
      if host_result.truthy = false then
        ("❌ Failed to create host " ++ pyQuote ++ pyStr hostname ++ pyQuote, c1, env1, tr1)
      else
        match extractCreatedId host_result "hostids" with
        | .error e => ("❌ Error: " ++ pyErrStr e, c1, env1, tr1)
        | .ok hostidV =>
          if hostidV.truthy = false then
            ("❌ Failed to get hostid from creation response", c1, env1, tr1)
          else
            let s2 := ZabbixClient.call remote c1 env1 "hostinterface.create"
                (some (JVal.obj [("hostid", hostidV), ("type", JVal.int 1),
                                 ("main", JVal.int 1), ("useip", JVal.int 1),
                                 ("ip", ip_address), ("dns", JVal.str ""), ("port", port)]))
            let c2 := s2.2.1
            let env2 := s2.2.2.1
            let tr2 := tr1 ++ s2.2.2.2
            match s2.1 with
            | .error e => ("❌ Error: " ++ pyErrStr e, c2, env2, tr2)
            | .ok interface_result =>
              if interface_result.truthy = false then
                ("⚠️ Host created (ID: " ++ pyStr hostidV ++ ") but interface creation failed",
                 c2, env2, tr2)
              else
                match extractCreatedId interface_result "interfaceids" with
                | .error e => ("❌ Error: " ++ pyErrStr e, c2, env2, tr2)
                | .ok interfaceidV =>
                  if template_id.truthy then
                    let s3 := ZabbixClient.call remote c2 env2 "host.update"
                        (some (JVal.obj [("hostid", hostidV),
                                         ("templates",
                                          JVal.arr [JVal.obj [("templateid", template_id)]])]))
                    let c3 := s3.2.1
                    let env3 := s3.2.2.1
                    let tr3 := tr2 ++ s3.2.2.2
                    match s3.1 with
                    | .error e => ("❌ Error: " ++ pyErrStr e, c3, env3, tr3)
                    | .ok template_result =>
                      if template_result.truthy = false then
                        ("⚠️ Host created (ID: " ++ pyStr hostidV ++
                           ") but template linking failed", c3, env3, tr3)
                      else
                        (createHostSuccessText hostname display_name ip_address port hostidV
                           interfaceidV template_id, c3, env3, tr3)
                  else
                    (createHostSuccessText hostname display_name ip_address port hostidV
                       interfaceidV template_id, c2, env2, tr2)

/-- Environment model for the host-creation theorem: a server that accepts
`host.create` (returning the given host id), `hostinterface.create`
(returning the given interface id) and `host.update`. -/
def okCreateServer (hid iid : String) : Remote Unit := fun _ p =>
  (if p.method = "host.create" then
     TResp.json (JVal.obj [("result", JVal.obj [("hostids", JVal.arr [JVal.str hid])])])
   else if p.method = "hostinterface.create" then
     TResp.json (JVal.obj [("result", JVal.obj [("interfaceids", JVal.arr [JVal.str iid])])])
   else
     TResp.json (JVal.obj [("result", JVal.obj [("hostids", JVal.arr [JVal.str hid])])]), ())

/-- One top-level operation on a connection: `authenticate()` or
`call(method, params)`. -/
inductive Op where
  | auth
  | call (method : String) (params? : Option JVal)

/-- The state-and-trace part of one operation's outcome (the Python caller
may observe the result or catch the raised exception; the connection state
and the envelopes issued are the same either way). -/
def opStep (remote : Remote σ) : Op → ZabbixClient → σ → ZabbixClient × σ × List Payload
  | .auth, c, env => (ZabbixClient.authenticate remote c env).2
  | .call m p, c, env => (ZabbixClient.call remote c env m p).2

/-- Run a sequence of operations on one connection, collecting every envelope
put on the wire over the connection's lifetime. -/
def runOps (remote : Remote σ) : List Op → ZabbixClient → σ → ZabbixClient × σ × List Payload
  | [], c, env => (c, env, [])
  | op :: ops, c, env =>
      let s := opStep remote op c env
      let r := runOps remote ops s.1 s.2.1
      (r.1, r.2.1, s.2.2 ++ r.2.2)

/-- A concrete authenticated client used by the witnesses. -/
def wClient : ZabbixClient :=
  { username := "Admin", password := "zabbix", token := some (JVal.str "tok"), requestId := 0 }

/-- A concrete server state used by the witnesses: one host `10084` with the
single template `10001`. -/
def wServer : List (String × List String) := [("10084", ["10001"])]

/-- C1: invoking `call` on a connection whose token was never set by a
successful `authenticate` fails with the "Not authenticated" error, issues no
envelope, and leaves the connection unchanged, for every method and params. -/
theorem call_before_authenticate_fails (σ : Type) (remote : Remote σ)
    (c : ZabbixClient) (env : σ) (method : String) (params? : Option JVal)
    (h : c.token = none) :
    ZabbixClient.call remote c env method params? =
      (.error (.zabbixAPIError "Not authenticated. Call authenticate() first."), c, env, []) := by
  simp [ZabbixClient.call, ZabbixClient.tokenTruthy, h]

/-- One operation issues no envelope and keeps the counter, or issues exactly
one envelope carrying the incremented counter as its id. -/
theorem opStep_ids (remote : Remote σ) (op : Op) (c : ZabbixClient) (env : σ) :
    (opStep remote op c env).2.2.map Payload.id = [] ∧
      (opStep remote op c env).1.requestId = c.requestId ∨
    (opStep remote op c env).2.2.map Payload.id = [(opStep remote op c env).1.requestId] ∧
      (opStep remote op c env).1.requestId = c.requestId + 1 := by
  cases op with
  | auth =>
      simp only [opStep, ZabbixClient.authenticate]
      split
      · simp
      · split
        · simp
        · split <;> simp
  | call m p =>
      simp only [opStep, ZabbixClient.call]
      split
      · simp
      · split
        · simp
        · split <;> simp

/-- Invariant of `runOps`: the counter never decreases, every issued id lies
strictly between the starting counter and the final counter, and the issued
ids are pairwise strictly increasing. -/
theorem runOps_ids (remote : Remote σ) (ops : List Op) :
    ∀ (c : ZabbixClient) (env : σ),
      c.requestId ≤ (runOps remote ops c env).1.requestId ∧
      (∀ i ∈ ((runOps remote ops c env).2.2).map Payload.id,
          c.requestId < i ∧ i ≤ (runOps remote ops c env).1.requestId) ∧
      (((runOps remote ops c env).2.2).map Payload.id).Pairwise (· < ·) := by
  induction ops with
  | nil => intro c env; simp [runOps]
  | cons op ops ih =>
      intro c env
      obtain ⟨hr1, hr2, hr3⟩ := ih (opStep remote op c env).1 (opStep remote op c env).2.1
      have hstep := opStep_ids remote op c env
      simp only [runOps, List.map_append, List.pairwise_append, List.mem_append]
      rcases hstep with ⟨hid, hrid⟩ | ⟨hid, hrid⟩ <;> rw [hid]
      · refine ⟨by omega, ?_, ?_⟩
        · intro i hi
          rcases hi with hi | hi
          · simp at hi
          · have := hr2 i hi
            omega
        · exact ⟨by simp, hr3, by intro a ha b hb; simp at ha⟩
      · refine ⟨by omega, ?_, ?_⟩
        · intro i hi
          rcases hi with hi | hi
          · simp at hi
            omega
          · have := hr2 i hi
            omega
        · refine ⟨by simp, hr3, ?_⟩
          intro a ha b hb
          simp at ha
          have := hr2 b hb
          omega

/-- C2: over any sequence of `authenticate` and `call` operations on a fresh
connection, the request ids placed in the outgoing JSON-RPC envelopes are
strictly increasing (hence unique) over the connection's lifetime. -/
theorem request_ids_strictly_increasing (σ : Type) (remote : Remote σ)
    (ops : List Op) (username password : String) (env : σ) :
    (((runOps remote ops (ZabbixClient.init username password) env).2.2).map
        Payload.id).Pairwise (· < ·) ∧
    (((runOps remote ops (ZabbixClient.init username password) env).2.2).map
        Payload.id).Pairwise (· ≠ ·) :=
  ⟨(runOps_ids remote ops (ZabbixClient.init username password) env).2.2,
   ((runOps_ids remote ops (ZabbixClient.init username password) env).2.2).imp
     (fun h => Nat.ne_of_lt h)⟩

/-- Witness for C1 at a concrete fresh client and oracle. -/
theorem call_before_authenticate_fails_witness :
    (ZabbixClient.init "Admin" "zabbix").token = none ∧
    ZabbixClient.call (fun u _ => (TResp.json (JVal.obj []), u))
        (ZabbixClient.init "Admin" "zabbix") () "host.get" none =
      (.error (.zabbixAPIError "Not authenticated. Call authenticate() first."),
        ZabbixClient.init "Admin" "zabbix", (), []) :=
  ⟨rfl, call_before_authenticate_fails Unit (fun u _ => (TResp.json (JVal.obj []), u))
      (ZabbixClient.init "Admin" "zabbix") () "host.get" none rfl⟩

/-- Accumulator form of `mapM` over a rendered template list. -/
theorem mapM_loop_extractTemplateId (ts : List String) (acc : List JVal) :
    List.mapM.loop extractTemplateId
        (ts.map (fun t => JVal.obj [("templateid", JVal.str t)])) acc =
      Except.ok (acc.reverse ++ ts.map JVal.str) := by
  induction ts generalizing acc with
  | nil => simp [List.mapM.loop, pure, Except.pure]
  | cons t ts ih =>
      simp [List.mapM.loop, extractTemplateId, JVal.getField, bind, Except.bind, ih]

/-- Extracting `templateid` back out of a rendered template list yields the
original ids. -/
theorem mapM_extractTemplateId (ts : List String) :
    ((ts.map (fun t => JVal.obj [("templateid", JVal.str t)])).mapM extractTemplateId) =
      Except.ok (ts.map JVal.str) := by
  simpa [List.mapM] using mapM_loop_extractTemplateId ts []

/-- The membership scan of `link_template` succeeds when the id is present. -/
theorem any_beq_str (ts : List String) (x : String) (h : x ∈ ts) :
    (ts.map JVal.str).any (fun v => JVal.beq v (JVal.str x)) = true := by
  induction ts with
  | nil => cases h
  | cons t ts ih =>
      rcases List.mem_cons.mp h with h | h
      · subst h; simp [JVal.beq]
      · simp [JVal.beq, ih h]

/-- The membership scan of `link_template` fails when the id is absent. -/
theorem any_beq_str_neg (ts : List String) (x : String) (h : x ∉ ts) :
    (ts.map JVal.str).any (fun v => JVal.beq v (JVal.str x)) = false := by
  induction ts with
  | nil => rfl
  | cons t ts ih =>
      have h1 : t ≠ x := fun e => h (e ▸ List.mem_cons_self t ts)
      have h2 : x ∉ ts := fun e => h (List.mem_cons_of_mem t e)
      simp [JVal.beq, h1, ih h2]

/-- The server reads back exactly the ids `link_template` sent. -/
theorem serverTemplateIds_built (ts : List String) (x : String) :
    serverTemplateIds ((ts.map JVal.str).map (fun v => JVal.obj [("templateid", v)]) ++
      [JVal.obj [("templateid", JVal.str x)]]) = ts ++ [x] := by
  induction ts with
  | nil => rfl
  | cons t ts ih =>
      simpa [serverTemplateIds, JVal.getField] using ih

/-- Replacing a present host's template list is visible to a later lookup. -/
theorem lookup_serverSetTemplates (srv : List (String × List String)) (h : String)
    (ts : List String) (hmem : (srv.lookup h).isSome) :
    (serverSetTemplates srv h ts).lookup h = some ts := by
  induction srv with
  | nil => simp [List.lookup] at hmem
  | cons kv srv ih =>
      obtain ⟨k, v⟩ := kv
      by_cases hk : k = h
      · subst hk
        have h1 : serverSetTemplates ((k, v) :: srv) k ts =
            (k, ts) :: serverSetTemplates srv k ts := by
          simp [serverSetTemplates]
        rw [h1]
        simp [List.lookup]
      · have h1 : serverSetTemplates ((k, v) :: srv) h ts =
            (k, v) :: serverSetTemplates srv h ts := by
          simp [serverSetTemplates, hk]
        have hne : (h == k) = false := by
          simp [Ne.symm hk]
        have hmem' : (srv.lookup h).isSome := by
          simpa [List.lookup, hne] using hmem
        rw [h1]
        simp only [List.lookup, hne]
        exact ih hmem'

/-- Evaluating `link_template` when the host exists and the template is
already linked: success, no `host.update`, server untouched. -/
theorem link_template_linked (c : ZabbixClient) (srv : List (String × List String))
    (hostid templateid : String) (tids : List String)
    (htok : c.tokenTruthy = true) (hlook : srv.lookup hostid = some tids)
    (hmem : templateid ∈ tids) :
    ZabbixClient.link_template serverRemote c srv hostid templateid =
      (.ok true, { c with requestId := c.requestId + 1 }, srv,
       [{ method := "host.get",
          params := JVal.obj [("output", JVal.str "extend"), ("hostids", JVal.str hostid),
                              ("selectParentTemplates", JVal.str "extend")],
          auth := c.token, id := c.requestId + 1 }]) := by
  have hcall1 : ZabbixClient.call serverRemote c srv "host.get"
      (some (JVal.obj [("output", JVal.str "extend"), ("hostids", JVal.str hostid),
                       ("selectParentTemplates", JVal.str "extend")])) =
      (Except.ok (JVal.arr [JVal.obj [("hostid", JVal.str hostid),
          ("parentTemplates", templatesAsJson tids)]]),
       { c with requestId := c.requestId + 1 }, srv,
       [{ method := "host.get",
          params := JVal.obj [("output", JVal.str "extend"), ("hostids", JVal.str hostid),
                              ("selectParentTemplates", JVal.str "extend")],
          auth := c.token, id := c.requestId + 1 }]) := by
    simp [ZabbixClient.call, htok, serverRemote, JVal.getField, List.lookup, hlook]
  have hex : ∃ x ∈ tids.map JVal.str, JVal.beq x (JVal.str templateid) = true :=
    ⟨JVal.str templateid, List.mem_map_of_mem JVal.str hmem, by simp [JVal.beq]⟩
  simp only [ZabbixClient.link_template, ZabbixClient.linkTemplateBody, hcall1]
  simp [JVal.truthy, pyIndex0, JVal.getField, List.lookup, asList, templatesAsJson,
    List.mapM, mapM_loop_extractTemplateId, any_beq_str tids templateid hmem, hex]

/-- Evaluating the client's `host.update` against the server model: the
server replaces the host's template list with the ids it reads out of the
payload. -/
theorem call_hostupdate_eval (c : ZabbixClient) (htok : c.tokenTruthy = true)
    (srv : List (String × List String)) (hostid : String) (newTs : List JVal) :
    ZabbixClient.call serverRemote c srv "host.update"
        (some (JVal.obj [("hostid", JVal.str hostid), ("templates", JVal.arr newTs)])) =
      (Except.ok (JVal.obj [("hostids", JVal.arr [JVal.str hostid])]),
       { c with requestId := c.requestId + 1 },
       serverSetTemplates srv hostid (serverTemplateIds newTs),
       [{ method := "host.update",
          params := JVal.obj [("hostid", JVal.str hostid), ("templates", JVal.arr newTs)],
          auth := c.token, id := c.requestId + 1 }]) := by
  simp [ZabbixClient.call, htok, serverRemote, JVal.getField, List.lookup]

/-- Single-map form of `serverTemplateIds_built`. -/
theorem serverTemplateIds_built_map (ts : List String) (x : String) :
    serverTemplateIds (ts.map (fun t => JVal.obj [("templateid", JVal.str t)]) ++
      [JVal.obj [("templateid", JVal.str x)]]) = ts ++ [x] := by
  induction ts with
  | nil => rfl
  | cons t ts ih =>
      simpa [serverTemplateIds, JVal.getField] using ih

/-- Evaluating `link_template` when the host exists and the template is not
yet linked: a `host.get` then a `host.update` carrying the merged list, and
the server ends with the template appended. -/
theorem link_template_unlinked (c : ZabbixClient) (srv : List (String × List String))
    (hostid templateid : String) (tids : List String)
    (htok : c.tokenTruthy = true) (hlook : srv.lookup hostid = some tids)
    (hmem : templateid ∉ tids) :
    ZabbixClient.link_template serverRemote c srv hostid templateid =
      (.ok true, { c with requestId := c.requestId + 1 + 1 },
       serverSetTemplates srv hostid (tids ++ [templateid]),
       [{ method := "host.get",
          params := JVal.obj [("output", JVal.str "extend"), ("hostids", JVal.str hostid),
                              ("selectParentTemplates", JVal.str "extend")],
          auth := c.token, id := c.requestId + 1 },
        { method := "host.update",
          params := JVal.obj [("hostid", JVal.str hostid),
            ("templates",
             JVal.arr (tids.map (fun t => JVal.obj [("templateid", JVal.str t)]) ++
               [JVal.obj [("templateid", JVal.str templateid)]]))],
          auth := c.token, id := c.requestId + 1 + 1 }]) := by
  have hcall1 : ZabbixClient.call serverRemote c srv "host.get"
      (some (JVal.obj [("output", JVal.str "extend"), ("hostids", JVal.str hostid),
                       ("selectParentTemplates", JVal.str "extend")])) =
      (Except.ok (JVal.arr [JVal.obj [("hostid", JVal.str hostid),
          ("parentTemplates", templatesAsJson tids)]]),
       { c with requestId := c.requestId + 1 }, srv,
       [{ method := "host.get",
          params := JVal.obj [("output", JVal.str "extend"), ("hostids", JVal.str hostid),
                              ("selectParentTemplates", JVal.str "extend")],
          auth := c.token, id := c.requestId + 1 }]) := by
    simp [ZabbixClient.call, htok, serverRemote, JVal.getField, List.lookup, hlook]
  have htok1 : ZabbixClient.tokenTruthy { c with requestId := c.requestId + 1 } = true := by
    simpa [ZabbixClient.tokenTruthy] using htok
  have hany : (tids.map JVal.str).any (fun v => JVal.beq v (JVal.str templateid)) = false :=
    any_beq_str_neg tids templateid hmem
  have hnex : ¬ ∃ x ∈ tids.map JVal.str, JVal.beq x (JVal.str templateid) = true := by
    intro hx
    rw [← List.any_eq_true] at hx
    rw [hany] at hx
    cases hx
  simp only [ZabbixClient.link_template, ZabbixClient.linkTemplateBody, hcall1]
  simp [JVal.truthy, pyIndex0, JVal.getField, List.lookup, asList, templatesAsJson,
    List.mapM, mapM_loop_extractTemplateId, hany, hnex, Function.comp,
    call_hostupdate_eval _ htok1, serverTemplateIds_built, serverTemplateIds_built_map]
  have hmapeq : List.map ((fun v => JVal.obj [("templateid", v)]) ∘ JVal.str) tids =
      List.map (fun t => JVal.obj [("templateid", JVal.str t)]) tids := rfl
  rw [hmapeq, serverTemplateIds_built_map]

/-- C3: `link_template(hostid, templateid)` is idempotent on an existing
host: when the template is already present the call succeeds issuing only
the `host.get` (no `host.update`), and whatever the starting template list,
a second call with the same arguments issues no `host.update`, succeeds, and
leaves the host's template set exactly as the first call left it. -/
theorem link_template_idempotent (c : ZabbixClient) (srv : List (String × List String))
    (hostid templateid : String) (tids : List String)
    (htok : c.tokenTruthy = true) (hlook : srv.lookup hostid = some tids) :
    (templateid ∈ tids →
      (ZabbixClient.link_template serverRemote c srv hostid templateid).1 = .ok true ∧
      ((ZabbixClient.link_template serverRemote c srv hostid templateid).2.2.2).map
          Payload.method = ["host.get"]) ∧
    (ZabbixClient.link_template serverRemote
        (ZabbixClient.link_template serverRemote c srv hostid templateid).2.1
        (ZabbixClient.link_template serverRemote c srv hostid templateid).2.2.1
        hostid templateid).1 = .ok true ∧
    (ZabbixClient.link_template serverRemote
        (ZabbixClient.link_template serverRemote c srv hostid templateid).2.1
        (ZabbixClient.link_template serverRemote c srv hostid templateid).2.2.1
        hostid templateid).2.2.1 =
      (ZabbixClient.link_template serverRemote c srv hostid templateid).2.2.1 ∧
    ((ZabbixClient.link_template serverRemote
        (ZabbixClient.link_template serverRemote c srv hostid templateid).2.1
        (ZabbixClient.link_template serverRemote c srv hostid templateid).2.2.1
        hostid templateid).2.2.2).map Payload.method = ["host.get"] := by
  have htok1 : ZabbixClient.tokenTruthy { c with requestId := c.requestId + 1 } = true := by
    simpa [ZabbixClient.tokenTruthy] using htok
  have htok2 : ZabbixClient.tokenTruthy { c with requestId := c.requestId + 1 + 1 } = true := by
    simpa [ZabbixClient.tokenTruthy] using htok
  by_cases hm : templateid ∈ tids
  · have h1 := link_template_linked c srv hostid templateid tids htok hlook hm
    have h2 := link_template_linked { c with requestId := c.requestId + 1 } srv hostid
        templateid tids htok1 hlook hm
    refine ⟨fun _ => ?_, ?_, ?_, ?_⟩ <;> simp [h1, h2]
  · have h1 := link_template_unlinked c srv hostid templateid tids htok hlook hm
    have hsome : (srv.lookup hostid).isSome := by rw [hlook]; rfl
    have hlook1 : (serverSetTemplates srv hostid (tids ++ [templateid])).lookup hostid =
        some (tids ++ [templateid]) := lookup_serverSetTemplates srv hostid _ hsome
    have hm1 : templateid ∈ tids ++ [templateid] := by simp
    have h2 := link_template_linked { c with requestId := c.requestId + 1 + 1 }
        (serverSetTemplates srv hostid (tids ++ [templateid])) hostid templateid
        (tids ++ [templateid]) htok2 hlook1 hm1
    refine ⟨fun hmm => absurd hmm hm, ?_, ?_, ?_⟩ <;> simp [h1, h2]

/-- Witness for C3 at the concrete client and server: linking template
`10266` (not yet linked) to host `10084` twice. -/
theorem link_template_idempotent_witness :
    wClient.tokenTruthy = true ∧ wServer.lookup "10084" = some ["10001"] ∧
    ((("10266" : String) ∈ (["10001"] : List String) →
      (ZabbixClient.link_template serverRemote wClient wServer "10084" "10266").1 = .ok true ∧
      ((ZabbixClient.link_template serverRemote wClient wServer "10084" "10266").2.2.2).map
          Payload.method = ["host.get"]) ∧
    (ZabbixClient.link_template serverRemote
        (ZabbixClient.link_template serverRemote wClient wServer "10084" "10266").2.1
        (ZabbixClient.link_template serverRemote wClient wServer "10084" "10266").2.2.1
        "10084" "10266").1 = .ok true ∧
    (ZabbixClient.link_template serverRemote
        (ZabbixClient.link_template serverRemote wClient wServer "10084" "10266").2.1
        (ZabbixClient.link_template serverRemote wClient wServer "10084" "10266").2.2.1
        "10084" "10266").2.2.1 =
      (ZabbixClient.link_template serverRemote wClient wServer "10084" "10266").2.2.1 ∧
    ((ZabbixClient.link_template serverRemote
        (ZabbixClient.link_template serverRemote wClient wServer "10084" "10266").2.1
        (ZabbixClient.link_template serverRemote wClient wServer "10084" "10266").2.2.1
        "10084" "10266").2.2.2).map Payload.method = ["host.get"]) :=
  ⟨rfl, rfl, link_template_idempotent wClient wServer "10084" "10266" ["10001"] rfl rfl⟩

/-- Counterexample for C4: with no host `999` on the server, `link_template`
returns the ordinary failure value `False` (an `Except.ok` value, not a
propagated error) — the descriptive "Host with ID 999 not found" error is
raised internally but caught by `link_template`'s own `except` handler, so
the caller sees the same ordinary Boolean failure value as for any other
failure, contradicting "rather than returning an ordinary success/failure
value". -/
theorem link_template_missing_host_returns_false :
    (ZabbixClient.link_template serverRemote wClient [] "999" "10001").1 =
      Except.ok false := rfl

/-- Amended C4: when the `host.get` lookup resolves no host, the body of
`link_template` raises a descriptive `ZabbixAPIError` naming the unresolved
host id, but the function's own `except ZabbixAPIError` handler swallows it:
the caller receives the ordinary failure value `False`, and no `host.update`
is issued (the only envelope is the `host.get`). -/
theorem link_template_missing_host_swallows_error (c : ZabbixClient)
    (srv : List (String × List String)) (hostid templateid : String)
    (htok : c.tokenTruthy = true) (hlook : srv.lookup hostid = none) :
    ZabbixClient.linkTemplateBody serverRemote c srv hostid templateid =
      (.error (.zabbixAPIError ("Host with ID " ++ hostid ++ " not found")),
       { c with requestId := c.requestId + 1 }, srv,
       [{ method := "host.get",
          params := JVal.obj [("output", JVal.str "extend"), ("hostids", JVal.str hostid),
                              ("selectParentTemplates", JVal.str "extend")],
          auth := c.token, id := c.requestId + 1 }]) ∧
    ZabbixClient.link_template serverRemote c srv hostid templateid =
      (.ok false, { c with requestId := c.requestId + 1 }, srv,
       [{ method := "host.get",
          params := JVal.obj [("output", JVal.str "extend"), ("hostids", JVal.str hostid),
                              ("selectParentTemplates", JVal.str "extend")],
          auth := c.token, id := c.requestId + 1 }]) := by
  have hcall1 : ZabbixClient.call serverRemote c srv "host.get"
      (some (JVal.obj [("output", JVal.str "extend"), ("hostids", JVal.str hostid),
                       ("selectParentTemplates", JVal.str "extend")])) =
      (Except.ok (JVal.arr []), { c with requestId := c.requestId + 1 }, srv,
       [{ method := "host.get",
          params := JVal.obj [("output", JVal.str "extend"), ("hostids", JVal.str hostid),
                              ("selectParentTemplates", JVal.str "extend")],
          auth := c.token, id := c.requestId + 1 }]) := by
    simp [ZabbixClient.call, htok, serverRemote, JVal.getField, List.lookup, hlook]
  constructor
  · simp only [ZabbixClient.linkTemplateBody, hcall1]
    simp [JVal.truthy]
  · simp only [ZabbixClient.link_template, ZabbixClient.linkTemplateBody, hcall1]
    simp [JVal.truthy]

/-- Witness for the amended C4 at the concrete client and an empty server. -/
theorem link_template_missing_host_swallows_error_witness :
    wClient.tokenTruthy = true ∧
    ([] : List (String × List String)).lookup "999" = none ∧
    (ZabbixClient.linkTemplateBody serverRemote wClient [] "999" "10001" =
      (.error (.zabbixAPIError ("Host with ID " ++ "999" ++ " not found")),
       { wClient with requestId := wClient.requestId + 1 }, [],
       [{ method := "host.get",
          params := JVal.obj [("output", JVal.str "extend"), ("hostids", JVal.str "999"),
                              ("selectParentTemplates", JVal.str "extend")],
          auth := wClient.token, id := wClient.requestId + 1 }]) ∧
    ZabbixClient.link_template serverRemote wClient [] "999" "10001" =
      (.ok false, { wClient with requestId := wClient.requestId + 1 }, [],
       [{ method := "host.get",
          params := JVal.obj [("output", JVal.str "extend"), ("hostids", JVal.str "999"),
                              ("selectParentTemplates", JVal.str "extend")],
          auth := wClient.token, id := wClient.requestId + 1 }])) :=
  ⟨rfl, rfl, link_template_missing_host_swallows_error wClient [] "999" "10001" rfl rfl⟩

/-- C5: whenever the username is, case-insensitively, a substring of the
password, `create_user` fails validation with the "Password validation
failed" message, issues no remote request at all, reports the username rule,
and also reports the surname rule when a truthy surname is contained in the
password — the rules are collected, not short-circuited. -/
theorem create_user_contained_username_fails (σ : Type) (apiCall : ApiCallFn σ) (env : σ)
    (username password role : String) (email name surname : Option String)
    (h : pyIn (pyLower username) (pyLower password) = true) :
    (create_user apiCall env username password role email name surname).1.success = false ∧
    (create_user apiCall env username password role email name surname).1.message =
      "Password validation failed" ∧
    (create_user apiCall env username password role email name surname).2.2 = [] ∧
    "Password cannot contain username" ∈
      (create_user apiCall env username password role email name surname).1.validation_errors ∧
    (∀ s, surname = some s → (s != "") = true →
      pyIn (pyLower s) (pyLower password) = true →
      "Password cannot contain surname" ∈
        (create_user apiCall env username password role email name
          surname).1.validation_errors) := by
  refine ⟨?_, ?_, ?_, ?_, ?_⟩
  · simp [create_user, h]
  · simp [create_user, h]
  · simp [create_user, h]
  · simp [create_user, h]
  · intro s hseq hne hcont
    subst hseq
    simp [create_user, h, hne, hcont]

/-- Witness for C5: username `"Admin"`, password `"admin123ito"`, surname
`"Ito"` — both containment rules are reported and nothing reaches the wire. -/
theorem create_user_contained_username_fails_witness :
    pyIn (pyLower "Admin") (pyLower "admin123ito") = true ∧
    (create_user (zabbixClientApiCall Unit) () "Admin" "admin123ito" "Super admin role"
        none none (some "Ito")).1.success = false ∧
    (create_user (zabbixClientApiCall Unit) () "Admin" "admin123ito" "Super admin role"
        none none (some "Ito")).1.message = "Password validation failed" ∧
    (create_user (zabbixClientApiCall Unit) () "Admin" "admin123ito" "Super admin role"
        none none (some "Ito")).2.2 = [] ∧
    "Password cannot contain username" ∈
      (create_user (zabbixClientApiCall Unit) () "Admin" "admin123ito" "Super admin role"
        none none (some "Ito")).1.validation_errors ∧
    "Password cannot contain surname" ∈
      (create_user (zabbixClientApiCall Unit) () "Admin" "admin123ito" "Super admin role"
        none none (some "Ito")).1.validation_errors := by
  have h := create_user_contained_username_fails Unit (zabbixClientApiCall Unit) ()
    "Admin" "admin123ito" "Super admin role" none none (some "Ito") (by decide)
  exact ⟨by decide, h.1, h.2.1, h.2.2.1, h.2.2.2.1, h.2.2.2.2 "Ito" rfl (by decide) (by decide)⟩

/-- C6: `update_user` with a truthy new password and an absent
`current_password` always returns a failure with an empty change list and
never issues a `user.update`, for any userid and any client object; with the
client the program actually wires in (`ZabbixClient`, which lacks
`api_call`), no remote request at all is issued. -/
theorem update_user_password_requires_current (σ : Type) (apiCall : ApiCallFn σ) (env : σ)
    (userid pw : String) (roleid email name surname : Option String)
    (hpw : (pw != "") = true) :
    (update_user (zabbixClientApiCall σ) env userid (some pw) roleid none email name
        surname).1.success = false ∧
    (update_user (zabbixClientApiCall σ) env userid (some pw) roleid none email name
        surname).1.changes_made = [] ∧
    (update_user (zabbixClientApiCall σ) env userid (some pw) roleid none email name
        surname).2.2 = [] ∧
    (update_user apiCall env userid (some pw) roleid none email name
        surname).1.success = false ∧
    (update_user apiCall env userid (some pw) roleid none email name
        surname).1.changes_made = [] ∧
    ((∀ (e : σ) (m : String) (p : JVal) (q : ApiReq), q ∈ (apiCall e m p).2.2 → q.1 = m) →
      ∀ q ∈ (update_user apiCall env userid (some pw) roleid none email name surname).2.2,
        q.1 ≠ "user.update") := by
  have hfetch : ∀ (g : ApiCallFn σ) (r : UpdateUserResult × σ × List ApiReq),
      r = update_user g env userid (some pw) roleid none email name surname →
      r.1.success = false ∧ r.1.changes_made = [] ∧
      r.2.2 = (g env "user.get"
        (JVal.obj [("output", JVal.arr [JVal.str "userid", JVal.str "username",
                    JVal.str "surname"]), ("userids", JVal.str userid)])).2.2 := by
    intro g r hr
    rcases h : g env "user.get"
        (JVal.obj [("output", JVal.arr [JVal.str "userid", JVal.str "username",
                    JVal.str "surname"]), ("userids", JVal.str userid)]) with ⟨res, env1, tr1⟩
    subst hr
    rcases res with e | cu
    · simp [update_user, h]
    · rcases hpi : pyIndex0 cu with e | current
      · by_cases hcu : cu.truthy = false
        · simp [update_user, h, hcu]
        · simp [update_user, h, hcu, hpi]
      · by_cases hcu : cu.truthy = false
        · simp [update_user, h, hcu]
        · simp [update_user, h, hcu, hpi, hpw, strOptTruthy]
  refine ⟨?_, ?_, ?_, ?_, ?_, ?_⟩
  · exact (hfetch (zabbixClientApiCall σ) _ rfl).1
  · exact (hfetch (zabbixClientApiCall σ) _ rfl).2.1
  · have h3 := (hfetch (zabbixClientApiCall σ) _ rfl).2.2
    simpa [zabbixClientApiCall] using h3
  · exact (hfetch apiCall _ rfl).1
  · exact (hfetch apiCall _ rfl).2.1
  · intro hhon q hq
    have h3 := (hfetch apiCall _ rfl).2.2
    rw [h3] at hq
    have := hhon env "user.get"
      (JVal.obj [("output", JVal.arr [JVal.str "userid", JVal.str "username",
                  JVal.str "surname"]), ("userids", JVal.str userid)]) q hq
    rw [this]
    decide

/-- Witness for C6 at userid `42` and new password `"secret"` with no
current password, against the actually wired client. -/
theorem update_user_password_requires_current_witness :
    (("secret" : String) != "") = true ∧
    (update_user (zabbixClientApiCall Unit) () "42" (some "secret") none none none none
        none).1.success = false ∧
    (update_user (zabbixClientApiCall Unit) () "42" (some "secret") none none none none
        none).1.changes_made = [] ∧
    (update_user (zabbixClientApiCall Unit) () "42" (some "secret") none none none none
        none).2.2 = [] := by
  have h := update_user_password_requires_current Unit (zabbixClientApiCall Unit) ()
    "42" "secret" none none none none (by decide)
  exact ⟨by decide, h.1, h.2.1, h.2.2.1⟩

/-- Counterexample for C7: the documented remote error
`(code -32500, message "Application error.", data "Login name or password is
incorrect.")` produces a `ZabbixAPIError` whose content is exactly
`"API error: Login name or password is incorrect."` — it carries the `data`
string but neither the code `-32500` nor the message `"Application error."`
verbatim, because `call` keeps only the error dict's `data` entry
(client.py line 120). -/
theorem call_error_drops_code_and_message :
    (ZabbixClient.call (fun (u : Unit) _ => (TResp.json (JVal.obj [("error", JVal.obj
        [("code", JVal.int (-32500)), ("message", JVal.str "Application error."),
         ("data", JVal.str "Login name or password is incorrect.")])]), u)) wClient ()
      "host.get" none).1 =
      Except.error (PyErr.zabbixAPIError "API error: Login name or password is incorrect.") ∧
    pyIn "-32500" "API error: Login name or password is incorrect." = false ∧
    pyIn "Application error." "API error: Login name or password is incorrect." = false := by
  refine ⟨rfl, by decide, by decide⟩

/-- Amended C7: when the response's error field is a mapping with a string
`data` entry, `call` fails with a `ZabbixAPIError` carrying only that data
string (code and message are dropped); when the response has no error field,
`call` returns the `result` field, defaulting to an empty mapping when
`result` is absent. -/
theorem call_remote_error_and_result (σ : Type) (remote : Remote σ) (c : ZabbixClient)
    (env : σ) (method : String) (params? : Option JVal) (data : JVal) (env1 : σ)
    (htok : c.tokenTruthy = true)
    (hresp : remote env { method := method, params := params?.getD (JVal.obj []),
                          auth := c.token, id := c.requestId + 1 } =
      (TResp.json data, env1)) :
    (∀ fs s, data.getField "error" = some (JVal.obj fs) →
      fs.lookup "data" = some (JVal.str s) →
      (ZabbixClient.call remote c env method params?).1 =
        Except.error (PyErr.zabbixAPIError ("API error: " ++ s))) ∧
    (data.getField "error" = none →
      (ZabbixClient.call remote c env method params?).1 =
        Except.ok ((data.getField "result").getD (JVal.obj []))) := by
  constructor
  · intro fs s herr hdata
    simp [ZabbixClient.call, htok, hresp, herr, hdata, pyStr]
  · intro herr
    simp [ZabbixClient.call, htok, hresp, herr]

/-- Witness for the amended C7: one error response carrying
`data := "boom"`, and one plain result response. -/
theorem call_remote_error_and_result_witness :
    wClient.tokenTruthy = true ∧
    (ZabbixClient.call (fun (u : Unit) _ => (TResp.json (JVal.obj [("error",
        JVal.obj [("code", JVal.int (-1)), ("data", JVal.str "boom")])]), u)) wClient ()
      "item.get" none).1 = Except.error (PyErr.zabbixAPIError "API error: boom") ∧
    (ZabbixClient.call (fun (u : Unit) _ => (TResp.json (JVal.obj [("result",
        JVal.arr [])]), u)) wClient () "item.get" none).1 = Except.ok (JVal.arr []) := by
  refine ⟨rfl, ?_, ?_⟩
  · exact (call_remote_error_and_result Unit
      (fun (u : Unit) _ => (TResp.json (JVal.obj [("error",
        JVal.obj [("code", JVal.int (-1)), ("data", JVal.str "boom")])]), u))
      wClient () "item.get" none
      (JVal.obj [("error", JVal.obj [("code", JVal.int (-1)), ("data", JVal.str "boom")])])
      () rfl rfl).1 [("code", JVal.int (-1)), ("data", JVal.str "boom")] "boom" rfl rfl
  · have h := (call_remote_error_and_result Unit
      (fun (u : Unit) _ => (TResp.json (JVal.obj [("result", JVal.arr [])]), u))
      wClient () "item.get" none (JVal.obj [("result", JVal.arr [])]) () rfl rfl).2 rfl
    simpa [JVal.getField, List.lookup] using h

/-- C9: `check_host_interface_availability` never raises — any exception from
the client layer is converted into the unknown record with the error string;
an empty host lookup yields the explicit unknown status with the
"Host not found" error; and with a host whose first-listed interface carries
availability code `n`, the status is classified by the fixed four-way
mapping 0→unknown, 1→available, 2→checking, 3→unavailable. -/
theorem check_host_interface_availability_classifies (σ : Type) (apiCall : ApiCallFn σ)
    (env : σ) (hostid : String) :
    (∀ e env1 tr, apiCall env "host.get"
        (JVal.obj [("output", JVal.arr [JVal.str "hostid", JVal.str "host", JVal.str "status"]),
                   ("selectInterfaces", JVal.arr [JVal.str "interfaceid", JVal.str "ip",
                                                 JVal.str "port", JVal.str "available"]),
                   ("hostids", JVal.str hostid)]) = (.error e, env1, tr) →
      (check_host_interface_availability apiCall env hostid).1 =
        { hostid := hostid, host := none, status := "unknown", available := 0,
          interfaces := [], error := some (pyErrStr e) }) ∧
    (∀ env1 tr, apiCall env "host.get"
        (JVal.obj [("output", JVal.arr [JVal.str "hostid", JVal.str "host", JVal.str "status"]),
                   ("selectInterfaces", JVal.arr [JVal.str "interfaceid", JVal.str "ip",
                                                 JVal.str "port", JVal.str "available"]),
                   ("hostids", JVal.str hostid)]) = (.ok (JVal.arr []), env1, tr) →
      (check_host_interface_availability apiCall env hostid).1 =
        { hostid := hostid, host := none, status := "unknown", available := 0,
          interfaces := [], error := some "Host not found" }) ∧
    (∀ host hs primary ifs n env1 tr, apiCall env "host.get"
        (JVal.obj [("output", JVal.arr [JVal.str "hostid", JVal.str "host", JVal.str "status"]),
                   ("selectInterfaces", JVal.arr [JVal.str "interfaceid", JVal.str "ip",
                                                 JVal.str "port", JVal.str "available"]),
                   ("hostids", JVal.str hostid)]) =
          (.ok (JVal.arr (host :: hs)), env1, tr) →
      host.getField "interfaces" = some (JVal.arr (primary :: ifs)) →
      primary.getField "available" = some (JVal.int n) →
      (check_host_interface_availability apiCall env hostid).1.available = n ∧
      (n = 0 →
        (check_host_interface_availability apiCall env hostid).1.status = "unknown") ∧
      (n = 1 →
        (check_host_interface_availability apiCall env hostid).1.status = "available") ∧
      (n = 2 →
        (check_host_interface_availability apiCall env hostid).1.status = "checking") ∧
      (n = 3 →
        (check_host_interface_availability apiCall env hostid).1.status = "unavailable")) := by
  refine ⟨?_, ?_, ?_⟩
  · intro e env1 tr h
    simp [check_host_interface_availability, h]
  · intro env1 tr h
    simp [check_host_interface_availability, h, JVal.truthy]
  · intro host hs primary ifs n env1 tr h hif hav
    refine ⟨?_, ?_, ?_, ?_, ?_⟩
    · simp [check_host_interface_availability, h, JVal.truthy, pyIndex0, asList, hif, hav,
        pyToInt]
    · rintro rfl
      simp [check_host_interface_availability, h, JVal.truthy, pyIndex0, asList, hif, hav,
        pyToInt, availability_map]
      decide
    · rintro rfl
      simp [check_host_interface_availability, h, JVal.truthy, pyIndex0, asList, hif, hav,
        pyToInt, availability_map]
      decide
    · rintro rfl
      simp [check_host_interface_availability, h, JVal.truthy, pyIndex0, asList, hif, hav,
        pyToInt, availability_map]
      decide
    · rintro rfl
      simp [check_host_interface_availability, h, JVal.truthy, pyIndex0, asList, hif, hav,
        pyToInt, availability_map]
      decide

/-- Witness for C9: the wired client (whose fetch raises), an empty lookup,
and a host whose first interface has availability code 1. -/
theorem check_host_interface_availability_classifies_witness :
    (check_host_interface_availability (zabbixClientApiCall Unit) () "10084").1 =
      { hostid := "10084", host := none, status := "unknown", available := 0,
        interfaces := [],
        error := some "ZabbixClient object has no attribute api_call" } ∧
    (check_host_interface_availability
        (fun (u : Unit) m p => (Except.ok (JVal.arr []), u, [(m, p)])) () "10084").1 =
      { hostid := "10084", host := none, status := "unknown", available := 0,
        interfaces := [], error := some "Host not found" } ∧
    (check_host_interface_availability
        (fun (u : Unit) m p => (Except.ok (JVal.arr [JVal.obj
          [("hostid", JVal.str "10084"), ("host", JVal.str "web"),
           ("interfaces", JVal.arr [JVal.obj [("available", JVal.int 1)]])]]), u,
          [(m, p)])) () "10084").1.available = 1 ∧
    (check_host_interface_availability
        (fun (u : Unit) m p => (Except.ok (JVal.arr [JVal.obj
          [("hostid", JVal.str "10084"), ("host", JVal.str "web"),
           ("interfaces", JVal.arr [JVal.obj [("available", JVal.int 1)]])]]), u,
          [(m, p)])) () "10084").1.status = "available" := by
  have h1 := (check_host_interface_availability_classifies Unit (zabbixClientApiCall Unit)
    () "10084").1 (PyErr.attributeError "ZabbixClient object has no attribute api_call")
    () [] rfl
  have h2 := (check_host_interface_availability_classifies Unit
    (fun (u : Unit) m p => (Except.ok (JVal.arr []), u, [(m, p)])) () "10084").2.1 () _ rfl
  have h3 := (check_host_interface_availability_classifies Unit
    (fun (u : Unit) m p => (Except.ok (JVal.arr [JVal.obj
      [("hostid", JVal.str "10084"), ("host", JVal.str "web"),
       ("interfaces", JVal.arr [JVal.obj [("available", JVal.int 1)]])]]), u,
      [(m, p)])) () "10084").2.2
    (JVal.obj [("hostid", JVal.str "10084"), ("host", JVal.str "web"),
      ("interfaces", JVal.arr [JVal.obj [("available", JVal.int 1)]])])
    [] (JVal.obj [("available", JVal.int 1)]) [] 1 () _ rfl rfl rfl
  exact ⟨h1, h2, h3.1, h3.2.2.1 rfl⟩

/-- C10: with the client object the program actually constructs
(`UserManagement(client)` over a `ZabbixClient`, tools.py), every remote step
of the user-management layer invokes the nonexistent attribute `api_call`
(`ZabbixClient` defines `call`), so each operation falls into its
exception/fallback branch: for every input, `create_user` and `update_user`
fail, `get_roles` reports an error with zero roles, `assign_role_to_user`
fails, `check_host_interface_availability` reports unknown with an error,
non-numeric role resolution yields `None` — and no remote request is ever
issued through the user-management layer. -/
theorem user_management_never_reaches_remote (σ : Type) (env : σ)
    (username password role userid roleid hostid : String)
    (email name surname password? roleid? current_password? email? name? surname? :
      Option String) :
    (create_user (zabbixClientApiCall σ) env username password role email name
        surname).1.success = false ∧
    (create_user (zabbixClientApiCall σ) env username password role email name
        surname).2.2 = [] ∧
    (update_user (zabbixClientApiCall σ) env userid password? roleid? current_password?
        email? name? surname?).1.success = false ∧
    (update_user (zabbixClientApiCall σ) env userid password? roleid? current_password?
        email? name? surname?).2.2 = [] ∧
    (get_roles (zabbixClientApiCall σ) env).1.total = 0 ∧
    (get_roles (zabbixClientApiCall σ) env).1.roles = JVal.arr [] ∧
    (get_roles (zabbixClientApiCall σ) env).1.error.isSome = true ∧
    (get_roles (zabbixClientApiCall σ) env).2.2 = [] ∧
    (assign_role_to_user (zabbixClientApiCall σ) env userid roleid).1.success = false ∧
    (assign_role_to_user (zabbixClientApiCall σ) env userid roleid).2.2 = [] ∧
    (check_host_interface_availability (zabbixClientApiCall σ) env hostid).1.status =
      "unknown" ∧
    (check_host_interface_availability (zabbixClientApiCall σ) env hostid).1.error.isSome =
      true ∧
    (check_host_interface_availability (zabbixClientApiCall σ) env hostid).2.2 = [] ∧
    (pyIsDigit role = false →
      resolve_role_id (zabbixClientApiCall σ) env role = (none, env, [])) := by
  have hcreate : (create_user (zabbixClientApiCall σ) env username password role email name
        surname).1.success = false ∧
      (create_user (zabbixClientApiCall σ) env username password role email name
        surname).2.2 = [] := by
    by_cases hdig : pyIsDigit role = true
    · have hne : (role != "") = true := by
        have h2 : role ≠ "" := by
          intro he
          subst he
          exact absurd hdig (by decide)
        exact bne_iff_ne.mpr h2
      constructor <;>
        simp [create_user, resolve_role_id, zabbixClientApiCall, hdig, jOptTruthy,
          JVal.truthy, hne] <;>
        split <;> simp
    · have hdig' : pyIsDigit role = false := by
        cases h : pyIsDigit role
        · rfl
        · exact absurd h hdig
      constructor <;>
        simp [create_user, resolve_role_id, zabbixClientApiCall, hdig', jOptTruthy] <;>
        split <;> simp
  refine ⟨hcreate.1, hcreate.2, ?_, ?_, ?_, ?_, ?_, ?_, ?_, ?_, ?_, ?_, ?_, ?_⟩
  · simp [update_user, zabbixClientApiCall]
  · simp [update_user, zabbixClientApiCall]
  · simp [get_roles, zabbixClientApiCall]
  · simp [get_roles, zabbixClientApiCall]
  · simp [get_roles, zabbixClientApiCall]
  · simp [get_roles, zabbixClientApiCall]
  · simp [assign_role_to_user, zabbixClientApiCall]
  · simp [assign_role_to_user, zabbixClientApiCall]
  · simp [check_host_interface_availability, zabbixClientApiCall]
  · simp [check_host_interface_availability, zabbixClientApiCall]
  · simp [check_host_interface_availability, zabbixClientApiCall]
  · intro hnd
    simp [resolve_role_id, zabbixClientApiCall, hnd]

/-- Witness for C10 at concrete inputs, including the non-numeric default
role `"Super admin role"`. -/
theorem user_management_never_reaches_remote_witness :
    (create_user (zabbixClientApiCall Unit) () "alice" "pw12345" "3" none none
        none).1.success = false ∧
    (create_user (zabbixClientApiCall Unit) () "alice" "pw12345" "3" none none
        none).2.2 = [] ∧
    (get_roles (zabbixClientApiCall Unit) ()).1.total = 0 ∧
    (assign_role_to_user (zabbixClientApiCall Unit) () "42" "3").1.success = false ∧
    pyIsDigit "Super admin role" = false ∧
    resolve_role_id (zabbixClientApiCall Unit) () "Super admin role" = (none, (), []) := by
  have h := user_management_never_reaches_remote Unit () "alice" "pw12345" "3" "42" "3"
    "10084" none none none none none none none none none
  have h2 := user_management_never_reaches_remote Unit () "alice" "pw12345"
    "Super admin role" "42" "3" "10084" none none none none none none none none none
  exact ⟨h.1, h.2.1, h.2.2.2.2.1, h.2.2.2.2.2.2.2.2.1,
    by decide, h2.2.2.2.2.2.2.2.2.2.2.2.2.2 (by decide)⟩

/-- C8: with hostname, display name and ip supplied (defaults for port,
group and template) against a server accepting the three calls,
`handle_create_host` issues exactly three remote calls, in order
`host.create`, `hostinterface.create`, `host.update`; the first call carries
no `hostid` parameter, and the second and third both carry exactly the host
id the server returned from the first call. -/
theorem handle_create_host_three_calls (c : ZabbixClient) (hostname display ip hid iid : String)
    (htok : c.tokenTruthy = true) (hh : (hostname != "") = true)
    (hd : (display != "") = true) (hip : (ip != "") = true) (hhid : (hid != "") = true) :
    ((handle_create_host (okCreateServer hid iid) c ()
        [("hostname", JVal.str hostname), ("display_name", JVal.str display),
         ("ip_address", JVal.str ip)]).2.2.2).map Payload.method =
      ["host.create", "hostinterface.create", "host.update"] ∧
    ((handle_create_host (okCreateServer hid iid) c ()
        [("hostname", JVal.str hostname), ("display_name", JVal.str display),
         ("ip_address", JVal.str ip)]).2.2.2).map
        (fun p => p.params.getField "hostid") =
      [none, some (JVal.str hid), some (JVal.str hid)] := by
  have htok1 : ZabbixClient.tokenTruthy { c with requestId := c.requestId + 1 } = true := by
    simpa [ZabbixClient.tokenTruthy] using htok
  have htok2 : ZabbixClient.tokenTruthy { c with requestId := c.requestId + 1 + 1 } = true := by
    simpa [ZabbixClient.tokenTruthy] using htok
  have hcall1 : ZabbixClient.call (okCreateServer hid iid) c () "host.create"
      (some (JVal.obj [("host", JVal.str hostname), ("name", JVal.str display),
                       ("groups", JVal.arr [JVal.obj [("groupid", JVal.str "2")]])])) =
      (Except.ok (JVal.obj [("hostids", JVal.arr [JVal.str hid])]),
       { c with requestId := c.requestId + 1 }, (),
       [{ method := "host.create",
          params := JVal.obj [("host", JVal.str hostname), ("name", JVal.str display),
                              ("groups", JVal.arr [JVal.obj [("groupid", JVal.str "2")]])],
          auth := c.token, id := c.requestId + 1 }]) := by
    simp [ZabbixClient.call, htok, okCreateServer, JVal.getField, List.lookup]
  have hcall2 : ZabbixClient.call (okCreateServer hid iid)
      { c with requestId := c.requestId + 1 } () "hostinterface.create"
      (some (JVal.obj [("hostid", JVal.str hid), ("type", JVal.int 1),
                       ("main", JVal.int 1), ("useip", JVal.int 1),
                       ("ip", JVal.str ip), ("dns", JVal.str ""),
                       ("port", JVal.str "10050")])) =
      (Except.ok (JVal.obj [("interfaceids", JVal.arr [JVal.str iid])]),
       { c with requestId := c.requestId + 1 + 1 }, (),
       [{ method := "hostinterface.create",
          params := JVal.obj [("hostid", JVal.str hid), ("type", JVal.int 1),
                              ("main", JVal.int 1), ("useip", JVal.int 1),
                              ("ip", JVal.str ip), ("dns", JVal.str ""),
                              ("port", JVal.str "10050")],
          auth := c.token, id := c.requestId + 1 + 1 }]) := by
    simp [ZabbixClient.call, htok1, okCreateServer, JVal.getField, List.lookup]
  have hcall3 : ZabbixClient.call (okCreateServer hid iid)
      { c with requestId := c.requestId + 1 + 1 } () "host.update"
      (some (JVal.obj [("hostid", JVal.str hid),
                       ("templates", JVal.arr [JVal.obj [("templateid", JVal.str "10001")]])])) =
      (Except.ok (JVal.obj [("hostids", JVal.arr [JVal.str hid])]),
       { c with requestId := c.requestId + 1 + 1 + 1 }, (),
       [{ method := "host.update",
          params := JVal.obj [("hostid", JVal.str hid),
                              ("templates",
                               JVal.arr [JVal.obj [("templateid", JVal.str "10001")]])],
          auth := c.token, id := c.requestId + 1 + 1 + 1 }]) := by
    simp [ZabbixClient.call, htok2, okCreateServer, JVal.getField, List.lookup]
  constructor <;>
    simp [handle_create_host, List.lookup, JVal.truthy, hh, hd, hip, hhid,
      hcall1, hcall2, hcall3, extractCreatedId, JVal.getField]

/-- Witness for C8: creating host `"n1"` (`"Node 1"`, `10.0.0.5`) against a
server returning host id `10500` and interface id `200`. -/
theorem handle_create_host_three_calls_witness :
    wClient.tokenTruthy = true ∧
    ((handle_create_host (okCreateServer "10500" "200") wClient ()
        [("hostname", JVal.str "n1"), ("display_name", JVal.str "Node 1"),
         ("ip_address", JVal.str "10.0.0.5")]).2.2.2).map Payload.method =
      ["host.create", "hostinterface.create", "host.update"] ∧
    ((handle_create_host (okCreateServer "10500" "200") wClient ()
        [("hostname", JVal.str "n1"), ("display_name", JVal.str "Node 1"),
         ("ip_address", JVal.str "10.0.0.5")]).2.2.2).map
        (fun p => p.params.getField "hostid") =
      [none, some (JVal.str "10500"), some (JVal.str "10500")] := by
  have h := handle_create_host_three_calls wClient "n1" "Node 1" "10.0.0.5" "10500" "200"
    rfl (by decide) (by decide) (by decide) (by decide)
  exact ⟨rfl, h.1, h.2⟩
